import Mathlib

/-!
Verification development for the Fortexa event-driven payment pipeline.

The definitions below are a shallow embedding of the Go sources:
settlement-engine (processor, repository, models), payment-engine
(Kafka handlers, models) and fraud-detection (analyzer, config, main).
Go's float64 money arithmetic is embedded as exact rational arithmetic
with the source's explicit two-decimal rounding; Go string-typed enums
are embedded as `String` constants so that zero values ("" / 0) behave
as in Go; `uuid.New()` draws and wall-clock timestamps are supplied by
explicit generator parameters (they are opaque to every property here).
-/

namespace Fortexa

/-! ### Rounding (settlement-engine/internal/processor, roundToTwoDecimals)

Go's `math.Round` rounds half away from zero. -/

/-- Integer rounding of a rational, half away from zero: the embedding of
Go `math.Round` applied to an exact value. -/
def goMathRound (q : ℚ) : ℤ :=
  if q < 0 then -(⌊-q + 1/2⌋) else ⌊q + 1/2⌋

/-- Embedding of `roundToTwoDecimals` (part_000 lines 171-174):
`math.Round(value*100) / 100`. -/
def roundToTwoDecimals (value : ℚ) : ℚ :=
  (goMathRound (value * 100) : ℚ) / 100

/-! ### Settlement-engine models (settlement-engine/internal/models/models.go)

Go declares these statuses and methods as string types; they are embedded
as `String` constants so Go zero values are representable. -/

def SettlementStatusPending : String := "PENDING"

def SettlementStatusProcessing : String := "PROCESSING"

def SettlementStatusCompleted : String := "COMPLETED"

def SettlementStatusFailed : String := "FAILED"

def SettlementMethodBankTransfer : String := "BANK_TRANSFER"

def SettlementMethodWallet : String := "WALLET"

def PaymentStatusInitiated : String := "INITIATED"

def PaymentStatusAuthorized : String := "AUTHORIZED"

def PaymentStatusCaptured : String := "CAPTURED"

def PaymentStatusSettled : String := "SETTLED"

def PaymentStatusRefunded : String := "REFUNDED"

def PaymentStatusFailed : String := "FAILED"

def PaymentMethodCreditCard : String := "CREDIT_CARD"

def PaymentMethodDebitCard : String := "DEBIT_CARD"

def PaymentMethodUPI : String := "UPI"

def PaymentMethodBankTransfer : String := "BANK_TRANSFER"

def PaymentMethodWallet : String := "WALLET"

def PaymentMethodCrypto : String := "CRYPTO"

def PaymentMethodBNPL : String := "BNPL"

/-- Embedding of `models.PaymentSummary` (per merchant-and-currency group).
Timestamps (earliest/latest payment) are not consulted by the processor and
are omitted. -/
structure PaymentSummary where
  merchantID : Nat
  totalAmount : ℚ
  currency : String
  paymentCount : Nat
  deriving Repr, DecidableEq

/-- Embedding of `models.MerchantSettlementConfig` (timestamps omitted). -/
structure MerchantSettlementConfig where
  merchantID : Nat
  settlementCycle : String
  preferredSettlementDay : Nat
  settlementMethod : String
  bankAccountID : String
  feePercent : ℚ
  minimumSettlementAmount : ℚ
  deriving Repr, DecidableEq

/-- The Go zero value of `MerchantSettlementConfig`: what a conventional
erroring `GetMerchantSettlementConfig` returns alongside its error. -/
def zeroMerchantSettlementConfig : MerchantSettlementConfig :=
  { merchantID := 0
    settlementCycle := ""
    preferredSettlementDay := 0
    settlementMethod := ""
    bankAccountID := ""
    feePercent := 0
    minimumSettlementAmount := 0 }

/-- Embedding of `models.Settlement` (timestamps omitted). -/
structure Settlement where
  id : Nat
  merchantID : Nat
  amount : ℚ
  currency : String
  status : String
  paymentCount : Nat
  feeAmount : ℚ
  taxAmount : ℚ
  netAmount : ℚ
  bankAccountID : String
  settlementMethod : String
  reference : String
  deriving Repr, DecidableEq

/-! ### Settlement repository view

`CreateSettlementBatch` interacts with `repository.Repository` only through
the calls below; the repository's responses (and the `uuid.New()` draws made
while building settlements) are supplied as data. -/

/-- Responses of the repository calls made inside `CreateSettlementBatch`,
together with the uuid supply: `freshId n` / `freshIdStr n` are the n-th
`uuid.New()` draw (as opaque id, and as its string form). A
`getMerchantSettlementConfig` response is the returned config paired with
the returned error, mirroring Go's `(config, err)` pair. -/
structure SettlementRepo where
  getMerchantSettlementConfig : Nat → MerchantSettlementConfig × Option String
  getPaymentIDs : Nat → String → Except String (List Nat)
  createSettlementErr : Settlement → Option String
  freshId : Nat → Nat
  freshIdStr : Nat → String

/-- Embedding of the `SettlementProcessor` configuration fields. -/
structure SettlementProcessor where
  defaultFeePercent : ℚ
  minimumSettlementAmount : ℚ
  deriving Repr, DecidableEq

/-- Embedding of the loop body of `CreateSettlementBatch`
(part_000 lines 69-144), threading the uuid draw counter `n` (each
constructed settlement consumes two draws: its id and its reference).
Per the source: a config error is only logged and the returned config is
used as-is; a group whose total is below the config's minimum is skipped;
a `GetPaymentIDs` error skips the group; fee/tax/net are computed with
`roundToTwoDecimals`; a `CreateSettlement` error skips the append. -/
def createSettlementBatchAux (p : SettlementProcessor) (repo : SettlementRepo) :
    Nat → List PaymentSummary → List Settlement
  | _, [] => []
  | n, s :: rest =>
    let config := (repo.getMerchantSettlementConfig s.merchantID).1
    if s.totalAmount < config.minimumSettlementAmount then
      createSettlementBatchAux p repo n rest
    else
      match repo.getPaymentIDs s.merchantID s.currency with
      | .error _ => createSettlementBatchAux p repo n rest
      | .ok _ =>
        let feePercent := if config.feePercent ≤ 0 then p.defaultFeePercent else config.feePercent
        let feeAmount := roundToTwoDecimals (s.totalAmount * feePercent / 100)
        let taxAmount := roundToTwoDecimals (feeAmount * 0.18)
        let netAmount := roundToTwoDecimals (s.totalAmount - feeAmount - taxAmount)
        let stl : Settlement :=
          { id := repo.freshId n
            merchantID := s.merchantID
            amount := s.totalAmount
            currency := s.currency
            status := SettlementStatusPending
            paymentCount := s.paymentCount
            feeAmount := feeAmount
            taxAmount := taxAmount
            netAmount := netAmount
            bankAccountID := config.bankAccountID
            settlementMethod := config.settlementMethod
            reference := "SET_" ++ (repo.freshIdStr (n + 1)).take 8 }
        match repo.createSettlementErr stl with
        | some _ => createSettlementBatchAux p repo (n + 2) rest
        | none => stl :: createSettlementBatchAux p repo (n + 2) rest

/-- Embedding of `CreateSettlementBatch` (part_000 lines 53-144): the batch
window dates only parameterize the repository queries and are absorbed into
the `SettlementRepo` responses. -/
def CreateSettlementBatch (p : SettlementProcessor) (repo : SettlementRepo)
    (summaries : List PaymentSummary) : List Settlement :=
  createSettlementBatchAux p repo 0 summaries

/-! ### Settlement transfer (ProcessSettlement, part_000 lines 146-169) -/

/-- The mutable store visible to `ProcessSettlement`: settlement statuses and
payment statuses by id. -/
structure Store where
  settlementStatus : Nat → String
  paymentStatus : Nat → String

/-- Embedding of the repository's `UpdateSettlementStatus` effect on the
store (db_repository.go lines 154-166: updates only the `settlements` row). -/
def updateSettlementStatus (sid : Nat) (status : String) (st : Store) : Store :=
  { st with settlementStatus := fun i => if i = sid then status else st.settlementStatus i }

/-- Error oracle for the two `UpdateSettlementStatus` calls inside
`ProcessSettlement`, by settlement id and target status. -/
structure TransferEnv where
  updateErr : Nat → String → Option String

/-- Embedding of `ProcessSettlement` (part_000 lines 146-169): set status
Processing, simulate the funds transfer (a log line and a sleep, which
cannot fail), set status Completed. Returns the error (if any) and the
resulting store. -/
def ProcessSettlement (env : TransferEnv) (s : Settlement) (st : Store) :
    Option String × Store :=
  match env.updateErr s.id SettlementStatusProcessing with
  | some e => (some e, st)
  | none =>
    let st1 := updateSettlementStatus s.id SettlementStatusProcessing st
    match env.updateErr s.id SettlementStatusCompleted with
    | some e => (some e, st1)
    | none => (none, updateSettlementStatus s.id SettlementStatusCompleted st1)

/-! ### Helper lemmas about the batch loop -/

/-- The settlement record the loop body of `CreateSettlementBatch` constructs
for a group, written out for use in lemma statements. -/
def builtSettlement (p : SettlementProcessor) (repo : SettlementRepo) (n : Nat)
    (s : PaymentSummary) : Settlement :=
  let config := (repo.getMerchantSettlementConfig s.merchantID).1
  let feePercent := if config.feePercent ≤ 0 then p.defaultFeePercent else config.feePercent
  let feeAmount := roundToTwoDecimals (s.totalAmount * feePercent / 100)
  let taxAmount := roundToTwoDecimals (feeAmount * 0.18)
  let netAmount := roundToTwoDecimals (s.totalAmount - feeAmount - taxAmount)
  { id := repo.freshId n
    merchantID := s.merchantID
    amount := s.totalAmount
    currency := s.currency
    status := SettlementStatusPending
    paymentCount := s.paymentCount
    feeAmount := feeAmount
    taxAmount := taxAmount
    netAmount := netAmount
    bankAccountID := config.bankAccountID
    settlementMethod := config.settlementMethod
    reference := "SET_" ++ (repo.freshIdStr (n + 1)).take 8 }

/-- Unfolding lemma: a group that passes the minimum check, whose payment-id
query succeeds and whose settlement insert succeeds contributes exactly the
built settlement. -/
theorem createSettlementBatchAux_cons
    (p : SettlementProcessor) (repo : SettlementRepo) (n : Nat)
    (s : PaymentSummary) (rest : List PaymentSummary)
    (hmin : ¬ s.totalAmount <
      (repo.getMerchantSettlementConfig s.merchantID).1.minimumSettlementAmount)
    (l : List Nat) (hids : repo.getPaymentIDs s.merchantID s.currency = .ok l)
    (hcr : repo.createSettlementErr (builtSettlement p repo n s) = none) :
    createSettlementBatchAux p repo n (s :: rest) =
      builtSettlement p repo n s :: createSettlementBatchAux p repo (n + 2) rest := by
  simp only [createSettlementBatchAux, hmin, if_false, hids]
  simp only [builtSettlement] at hcr ⊢
  rw [hcr]

/-- Unfolding lemma: a group whose total is below the config minimum is
skipped. -/
theorem createSettlementBatchAux_skip
    (p : SettlementProcessor) (repo : SettlementRepo) (n : Nat)
    (s : PaymentSummary) (rest : List PaymentSummary)
    (hmin : s.totalAmount <
      (repo.getMerchantSettlementConfig s.merchantID).1.minimumSettlementAmount) :
    createSettlementBatchAux p repo n (s :: rest) =
      createSettlementBatchAux p repo n rest := by
  simp only [createSettlementBatchAux, hmin, if_true]

/-! ### Claims about the settlement batcher -/

/-- C1: for every eligible payment group with total amount T and effective fee
percent p (the merchant's configured percent, or the system default when the
configured percent is ≤ 0), the created settlement satisfies
fee = round2(T·p/100), tax = round2(fee·0.18), net = round2(T − fee − tax),
where round2 rounds half away from zero to two decimal places. -/
theorem settlement_fee_tax_net
    (p : SettlementProcessor) (repo : SettlementRepo) (n : Nat)
    (s : PaymentSummary) (rest : List PaymentSummary)
    (hmin : (repo.getMerchantSettlementConfig s.merchantID).1.minimumSettlementAmount
      ≤ s.totalAmount)
    (l : List Nat) (hids : repo.getPaymentIDs s.merchantID s.currency = .ok l)
    (hcr : ∀ stl, repo.createSettlementErr stl = none) :
    ∃ stl tail, createSettlementBatchAux p repo n (s :: rest) = stl :: tail ∧
      stl.amount = s.totalAmount ∧
      stl.feeAmount = roundToTwoDecimals (s.totalAmount *
        (if (repo.getMerchantSettlementConfig s.merchantID).1.feePercent ≤ 0
         then p.defaultFeePercent
         else (repo.getMerchantSettlementConfig s.merchantID).1.feePercent) / 100) ∧
      stl.taxAmount = roundToTwoDecimals (stl.feeAmount * 0.18) ∧
      stl.netAmount = roundToTwoDecimals (s.totalAmount - stl.feeAmount - stl.taxAmount) := by
  refine ⟨builtSettlement p repo n s, createSettlementBatchAux p repo (n + 2) rest,
    ?_, rfl, rfl, rfl, rfl⟩
  exact createSettlementBatchAux_cons p repo n s rest (not_lt.mpr hmin) l hids (hcr _)

/-- Configuration of the settlement processor used in the concrete C1 run
(system default fee percent 2.5, minimum 100). -/
def processorC1 : SettlementProcessor :=
  { defaultFeePercent := 2.5, minimumSettlementAmount := 100 }

/-- Repository responses for the concrete C1 run: merchant config with
feePercent 2.5 and minimum 100, successful payment-id query, successful
settlement insert. -/
def repoC1 : SettlementRepo :=
  { getMerchantSettlementConfig := fun m =>
      ({ merchantID := m
         settlementCycle := "DAILY"
         preferredSettlementDay := 1
         settlementMethod := SettlementMethodBankTransfer
         bankAccountID := "bank_acc_m1"
         feePercent := 2.5
         minimumSettlementAmount := 100 }, none)
    getPaymentIDs := fun _ _ => .ok [101, 102, 103]
    createSettlementErr := fun _ => none
    freshId := fun n => 1000 + n
    freshIdStr := fun _ => "0a1b2c3d4e5f" }

/-- The M1/USD group of the spec's settlement-batch scenario: three captured
payments totalling 1000.25. -/
def summaryC1 : PaymentSummary :=
  { merchantID := 1, totalAmount := 1000.25, currency := "USD", paymentCount := 3 }

/-- Witness for C1: on the concrete group with T = 1000.25 and p = 2.5 the
created settlement has fee 25.01, tax 4.50 and net 970.74. -/
theorem settlement_fee_tax_net_witness :
    ∃ stl tail, createSettlementBatchAux processorC1 repoC1 0 [summaryC1] = stl :: tail ∧
      stl.amount = 1000.25 ∧ stl.feeAmount = 25.01 ∧ stl.taxAmount = 4.5 ∧
      stl.netAmount = 970.74 := by
  obtain ⟨stl, tail, he, ha, hf, ht, hn⟩ :=
    settlement_fee_tax_net processorC1 repoC1 0 summaryC1 []
      (by norm_num [repoC1, summaryC1]) [101, 102, 103] rfl (fun _ => rfl)
  have hfv : stl.feeAmount = 25.01 := by
    rw [hf]; norm_num [repoC1, summaryC1, processorC1, roundToTwoDecimals, goMathRound]
  have htv : stl.taxAmount = 4.5 := by
    rw [ht, hfv]; norm_num [roundToTwoDecimals, goMathRound]
  have hnv : stl.netAmount = 970.74 := by
    rw [hn, hfv, htv]; norm_num [summaryC1, roundToTwoDecimals, goMathRound]
  have hav : stl.amount = 1000.25 := by rw [ha]; norm_num [summaryC1]
  exact ⟨stl, tail, he, hav, hfv, htv, hnv⟩

/-- C7: a merchant-and-currency group creates a settlement if and only if the
group total is at least the merchant's minimum settlement amount; the minimum
is inclusive, and groups strictly below it are skipped entirely. (Stated for a
repository whose payment-id query and settlement insert succeed, since those
errors also skip a group.) -/
theorem settlement_created_iff_min_met
    (p : SettlementProcessor) (repo : SettlementRepo) (n : Nat)
    (s : PaymentSummary)
    (l : List Nat) (hids : repo.getPaymentIDs s.merchantID s.currency = .ok l)
    (hcr : ∀ stl, repo.createSettlementErr stl = none) :
    createSettlementBatchAux p repo n [s] ≠ [] ↔
      (repo.getMerchantSettlementConfig s.merchantID).1.minimumSettlementAmount
        ≤ s.totalAmount := by
  by_cases h : s.totalAmount <
      (repo.getMerchantSettlementConfig s.merchantID).1.minimumSettlementAmount
  · rw [createSettlementBatchAux_skip p repo n s [] h]
    simp [createSettlementBatchAux, not_le.mpr h]
  · rw [createSettlementBatchAux_cons p repo n s [] h l hids (hcr _)]
    simp [not_lt.mp h]

/-- Group totalling exactly the minimum settlement amount (100). -/
def summaryC7 : PaymentSummary :=
  { merchantID := 1, totalAmount := 100, currency := "USD", paymentCount := 1 }

/-- Witness for C7: a group total exactly equal to the minimum (100) does
create a settlement. -/
theorem settlement_created_iff_min_met_witness :
    createSettlementBatchAux processorC1 repoC1 0 [summaryC7] ≠ [] :=
  (settlement_created_iff_min_met processorC1 repoC1 0 summaryC7
    [101, 102, 103] rfl (fun _ => rfl)).mpr (by norm_num [repoC1, summaryC7])

/-- C9: when the merchant settlement config lookup errors, the group is not
skipped: the loop proceeds with the (zero-valued) config returned alongside
the error, so any non-negative total passes the minimum check (which is then
against 0), the fee percent falls back to the system default (the zero value
is ≤ 0), and the created settlement carries an empty bank-account id. -/
theorem settlement_config_error_uses_defaults
    (p : SettlementProcessor) (repo : SettlementRepo) (n : Nat)
    (s : PaymentSummary) (e : String)
    (hcfg : repo.getMerchantSettlementConfig s.merchantID =
      (zeroMerchantSettlementConfig, some e))
    (htot : 0 ≤ s.totalAmount)
    (l : List Nat) (hids : repo.getPaymentIDs s.merchantID s.currency = .ok l)
    (hcr : ∀ stl, repo.createSettlementErr stl = none) :
    ∃ stl, createSettlementBatchAux p repo n [s] = [stl] ∧
      stl.bankAccountID = "" ∧
      stl.feeAmount = roundToTwoDecimals (s.totalAmount * p.defaultFeePercent / 100) ∧
      stl.amount = s.totalAmount := by
  have hmin : ¬ s.totalAmount <
      (repo.getMerchantSettlementConfig s.merchantID).1.minimumSettlementAmount := by
    rw [hcfg]
    simpa [zeroMerchantSettlementConfig] using not_lt.mpr htot
  refine ⟨builtSettlement p repo n s,
    createSettlementBatchAux_cons p repo n s [] hmin l hids (hcr _), ?_, ?_, rfl⟩
  · simp [builtSettlement, hcfg, zeroMerchantSettlementConfig]
  · simp [builtSettlement, hcfg, zeroMerchantSettlementConfig]

/-- Repository whose config lookup fails (returning the Go zero value of the
config together with the error), with the other calls succeeding. -/
def repoC9 : SettlementRepo :=
  { getMerchantSettlementConfig := fun _ =>
      (zeroMerchantSettlementConfig, some "connection refused")
    getPaymentIDs := fun _ _ => .ok [7]
    createSettlementErr := fun _ => none
    freshId := fun n => 2000 + n
    freshIdStr := fun _ => "ffee00112233" }

/-- Group with a small positive total (50), below every sensible minimum but
not below 0. -/
def summaryC9 : PaymentSummary :=
  { merchantID := 3, totalAmount := 50, currency := "EUR", paymentCount := 1 }

/-- Witness for C9: with an erroring config lookup, the 50.00 group is still
settled, with the default fee percent (2.5, giving fee 1.25) and an empty
bank-account id. -/
theorem settlement_config_error_uses_defaults_witness :
    ∃ stl, createSettlementBatchAux processorC1 repoC9 0 [summaryC9] = [stl] ∧
      stl.bankAccountID = "" ∧ stl.feeAmount = 1.25 ∧ stl.amount = 50 := by
  obtain ⟨stl, he, hb, hf, ha⟩ :=
    settlement_config_error_uses_defaults processorC1 repoC9 0 summaryC9
      "connection refused" rfl (by norm_num [summaryC9]) [7] rfl (fun _ => rfl)
  refine ⟨stl, he, hb, ?_, ?_⟩
  · rw [hf]; norm_num [summaryC9, processorC1, roundToTwoDecimals, goMathRound]
  · rw [ha]; norm_num [summaryC9]

/-! ### Claims about the settlement transfer -/

/-- C3 (amended): `ProcessSettlement` never touches payment statuses; when
both status updates succeed it reports success and the settlement ends
Completed; and it never sets a settlement to Failed (the simulated transfer
cannot fail). -/
theorem processSettlement_completes_leaves_payments
    (env : TransferEnv) (s : Settlement) (st : Store) (pid sid : Nat)
    (h1 : env.updateErr s.id SettlementStatusProcessing = none)
    (h2 : env.updateErr s.id SettlementStatusCompleted = none)
    (hs : st.settlementStatus sid ≠ SettlementStatusFailed) :
    (ProcessSettlement env s st).1 = none ∧
    (ProcessSettlement env s st).2.settlementStatus s.id = SettlementStatusCompleted ∧
    (ProcessSettlement env s st).2.paymentStatus pid = st.paymentStatus pid ∧
    (ProcessSettlement env s st).2.settlementStatus sid ≠ SettlementStatusFailed := by
  have e1 : (ProcessSettlement env s st).1 = none := by
    simp [ProcessSettlement, h1, h2]
  have e2 : (ProcessSettlement env s st).2.settlementStatus s.id =
      SettlementStatusCompleted := by
    simp [ProcessSettlement, h1, h2, updateSettlementStatus]
  have e3 : (ProcessSettlement env s st).2.paymentStatus pid = st.paymentStatus pid := by
    simp [ProcessSettlement, h1, h2, updateSettlementStatus]
  have e4 : (ProcessSettlement env s st).2.settlementStatus sid ≠
      SettlementStatusFailed := by
    by_cases heq : sid = s.id
    · subst heq
      simp only [ProcessSettlement, h1, h2, updateSettlementStatus, if_pos rfl]
      simp [SettlementStatusCompleted, SettlementStatusFailed]
    · simpa [ProcessSettlement, h1, h2, updateSettlementStatus, heq] using hs
  exact ⟨e1, e2, e3, e4⟩

/-- Transfer environment whose status updates always succeed. -/
def envOk : TransferEnv := { updateErr := fun _ _ => none }

/-- Store for the C3 run: every settlement Pending, every payment Captured
(payment 1 is the one contained in the settlement). -/
def storeC3 : Store :=
  { settlementStatus := fun _ => SettlementStatusPending
    paymentStatus := fun _ => PaymentStatusCaptured }

/-- The settlement processed in the C3 run (payment 1 is its only contained
payment). -/
def settlementC3 : Settlement :=
  { id := 9
    merchantID := 1
    amount := 100
    currency := "USD"
    status := SettlementStatusPending
    paymentCount := 1
    feeAmount := 2.5
    taxAmount := 0.45
    netAmount := 97.05
    bankAccountID := "bank_acc_m1"
    settlementMethod := SettlementMethodBankTransfer
    reference := "SET_0a1b2c3d"
    }

/-- Counterexample to C3 as stated: a fully successful `ProcessSettlement`
run marks the settlement Completed but leaves its contained payment Captured
instead of transitioning it to Settled. -/
theorem processSettlement_no_settled_transition :
    (ProcessSettlement envOk settlementC3 storeC3).1 = none ∧
    (ProcessSettlement envOk settlementC3 storeC3).2.settlementStatus 9 =
      SettlementStatusCompleted ∧
    (ProcessSettlement envOk settlementC3 storeC3).2.paymentStatus 1 ≠
      PaymentStatusSettled := by
  refine ⟨rfl, by simp [ProcessSettlement, envOk, updateSettlementStatus, settlementC3], ?_⟩
  simp [ProcessSettlement, envOk, updateSettlementStatus, storeC3, settlementC3,
    PaymentStatusCaptured, PaymentStatusSettled]

/-- Witness for the amended C3 theorem at the concrete run. -/
theorem processSettlement_completes_leaves_payments_witness :
    (ProcessSettlement envOk settlementC3 storeC3).1 = none ∧
    (ProcessSettlement envOk settlementC3 storeC3).2.settlementStatus 9 =
      SettlementStatusCompleted ∧
    (ProcessSettlement envOk settlementC3 storeC3).2.paymentStatus 1 =
      storeC3.paymentStatus 1 ∧
    (ProcessSettlement envOk settlementC3 storeC3).2.settlementStatus 5 ≠
      SettlementStatusFailed := by
  have h := processSettlement_completes_leaves_payments envOk settlementC3 storeC3 1 5
    rfl rfl (by simp [storeC3, SettlementStatusPending, SettlementStatusFailed])
  simpa [settlementC3] using h

/-! ### Payment-engine models (payment-engine/internal/models/payment.go)

The fraud-detection service declares a structurally identical Payment model
(fraud-detection/internal/models/payment.go); both are embedded by the one
structure below. Go's `map[string]interface{}` metadata is embedded as an
association list of string keys to JSON-ish values (only strings and numbers
are ever stored or read by the services). -/

/-- A metadata value: the services only ever store strings or float64s. -/
inductive MetaVal
  | str : String → MetaVal
  | num : ℚ → MetaVal
  deriving Repr, DecidableEq

/-- Embedding of `map[string]interface{}`: an association list, most recent
write first. -/
def Metadata := List (String × MetaVal)
deriving Repr, DecidableEq

/-- Map read `m[k]`: the most recent value stored at `k`, if any. -/
def metaGet (m : Metadata) (k : String) : Option MetaVal :=
  (List.find? (fun kv => kv.1 == k) m).map (fun kv => kv.2)

/-- Map write `m[k] = v`. -/
def metaSet (m : Metadata) (k : String) (v : MetaVal) : Metadata :=
  (k, v) :: m

/-- Embedding of `models.Payment` (ids as `Nat`, money as `ℚ`, status and
method as their Go string values; timestamps omitted). -/
structure Payment where
  id : Nat
  merchantID : Nat
  customerID : Nat
  amount : ℚ
  currency : String
  status : String
  paymentMethodType : String
  metadata : Metadata
  idempotencyKey : String
  referenceID : String
  deriving Repr, DecidableEq

/-- Embedding of `models.PaymentEvent`: the Kafka envelope (timestamp
omitted). -/
structure PaymentEvent where
  id : Nat
  type : String
  payment : Payment
  deriving Repr, DecidableEq

/-- Partition key used by `publishEvent` calls: `payment.ID.String()`. -/
def payKey (p : Payment) : String := toString p.id

/-! ### Processor adapters (package processors,
src/payment-engine/internal/models/payment.go, after the models)

The three processors simulate payment gateways: `Authorize` validates the
request, for cards also rejects an expired card against the current date,
and then approves iff a `rand.Float64()` draw is under the success rate;
every `Capture` and every `Refund` implementation logs and unconditionally
returns nil. Go `error` values are embedded as their message strings. -/

/-- The processor implementations the factory can return
(CardProcessor, UPIProcessor, BankProcessor). -/
inductive ProcessorKind
  | card
  | upi
  | bank
  deriving Repr, DecidableEq

/-- Embedding of `processors.PaymentProcessorFactory` (payment.go lines
135-146): credit and debit cards get the card processor, UPI and bank
transfer theirs, and any other method fails with `ErrInvalidPaymentMethod`
("invalid payment method"). -/
def PaymentProcessorFactory (paymentMethod : String) : Except String ProcessorKind :=
  if paymentMethod = PaymentMethodCreditCard ∨ paymentMethod = PaymentMethodDebitCard then
    .ok .card
  else if paymentMethod = PaymentMethodUPI then
    .ok .upi
  else if paymentMethod = PaymentMethodBankTransfer then
    .ok .bank
  else
    .error "invalid payment method"

/-- Embedding of `models.CardDetails`. -/
structure CardDetails where
  cardNumber : String
  expiryMonth : String
  expiryYear : String
  cvv : String
  cardholderName : String
  deriving Repr, DecidableEq

/-- Embedding of `models.UPIDetails`. -/
structure UPIDetails where
  upiID : String
  deriving Repr, DecidableEq

/-- Embedding of `models.BankDetails`. -/
structure BankDetails where
  accountNumber : String
  ifsc : String
  accountName : String
  deriving Repr, DecidableEq

/-- Embedding of `models.PaymentAuthorizationRequest`. -/
structure PaymentAuthorizationRequest where
  paymentID : Nat
  amount : ℚ
  currency : String
  paymentMethodType : String
  cardDetails : Option CardDetails
  upiDetails : Option UPIDetails
  bankDetails : Option BankDetails
  deriving Repr, DecidableEq

/-- Embedding of `models.PaymentAuthorizationResponse` (timestamp
omitted). -/
structure AuthorizationResponse where
  paymentID : Nat
  processorID : String
  approved : Bool
  authorizationID : String
  error : String
  deriving Repr, DecidableEq

/-- Model of Go `time.Parse("2006", s).Year()` as the card processor uses
it: a four-digit numeric string parses to its value; any other input makes
`time.Parse` error (the error is discarded by the source), leaving the zero
Time, whose year is 1. -/
def goParseYear (s : String) : ℤ :=
  match if s.length = 4 then s.toNat? else none with
  | some n => (n : ℤ)
  | none => 1

/-- Model of Go `int(time.Parse("01", s).Month())` as the card processor
uses it: a zero-padded two-digit month 01-12 parses to its value; any other
input makes `time.Parse` error (the error is discarded by the source),
leaving the zero Time, whose month is January (1). -/
def goParseMonth (s : String) : ℤ :=
  match if s.length = 2 then s.toNat? else none with
  | some n => if 1 ≤ n ∧ n ≤ 12 then (n : ℤ) else 1
  | none => 1

/-- Embedding of `CardProcessor.Authorize` (payment.go): require card
details, reject an expired card against the current date (year and month),
then approve iff the random draw `r` is under 0.9; a decline carries
"Card declined by issuer" and `ErrPaymentFailed`. `authUUID` is the
`uuid.New().String()` draw used for the authorization id. -/
def cardAuthorize (currentYear currentMonth : ℤ) (r : ℚ) (authUUID : String)
    (req : PaymentAuthorizationRequest) : AuthorizationResponse × Option String :=
  match req.cardDetails with
  | none =>
    ({ paymentID := req.paymentID, processorID := "card-processor", approved := false,
       authorizationID := "", error := "Card details are required" },
     some "invalid card details")
  | some cd =>
    let cardYear := goParseYear ("20" ++ cd.expiryYear)
    let cardMonth := goParseMonth cd.expiryMonth
    if cardYear < currentYear ∨ (cardYear = currentYear ∧ cardMonth < currentMonth) then
      ({ paymentID := req.paymentID, processorID := "card-processor", approved := false,
         authorizationID := "", error := "Card has expired" },
       some "card expired")
    else if r < 0.9 then
      ({ paymentID := req.paymentID, processorID := "card-processor", approved := true,
         authorizationID := "auth_" ++ authUUID, error := "" }, none)
    else
      ({ paymentID := req.paymentID, processorID := "card-processor", approved := false,
         authorizationID := "", error := "Card declined by issuer" },
       some "payment failed")

/-- Embedding of `UPIProcessor.Authorize` (payment.go): require UPI
details, then approve iff the random draw `r` is under 0.95. -/
def upiAuthorize (r : ℚ) (authUUID : String)
    (req : PaymentAuthorizationRequest) : AuthorizationResponse × Option String :=
  match req.upiDetails with
  | none =>
    ({ paymentID := req.paymentID, processorID := "upi-processor", approved := false,
       authorizationID := "", error := "UPI details are required" },
     some "invalid UPI ID")
  | some _ =>
    if r < 0.95 then
      ({ paymentID := req.paymentID, processorID := "upi-processor", approved := true,
         authorizationID := "upi_" ++ authUUID, error := "" }, none)
    else
      ({ paymentID := req.paymentID, processorID := "upi-processor", approved := false,
         authorizationID := "", error := "UPI payment failed" },
       some "payment failed")

/-- Embedding of `BankProcessor.Authorize` (payment.go): require bank
details, then approve iff the random draw `r` is under 0.9. -/
def bankAuthorize (r : ℚ) (authUUID : String)
    (req : PaymentAuthorizationRequest) : AuthorizationResponse × Option String :=
  match req.bankDetails with
  | none =>
    ({ paymentID := req.paymentID, processorID := "bank-processor", approved := false,
       authorizationID := "", error := "Bank details are required" },
     some "invalid bank details")
  | some _ =>
    if r < 0.9 then
      ({ paymentID := req.paymentID, processorID := "bank-processor", approved := true,
         authorizationID := "bank_" ++ authUUID, error := "" }, none)
    else
      ({ paymentID := req.paymentID, processorID := "bank-processor", approved := false,
         authorizationID := "", error := "Bank transfer failed" },
       some "payment failed")

/-- `Authorize` dispatched over the processor the factory returned. -/
def processorAuthorize (k : ProcessorKind) (currentYear currentMonth : ℤ)
    (r : ℚ) (authUUID : String) (req : PaymentAuthorizationRequest) :
    AuthorizationResponse × Option String :=
  match k with
  | .card => cardAuthorize currentYear currentMonth r authUUID req
  | .upi => upiAuthorize r authUUID req
  | .bank => bankAuthorize r authUUID req

/-- Embedding of the three `Capture` implementations (payment.go): each of
CardProcessor, UPIProcessor and BankProcessor logs and unconditionally
returns nil. -/
def processorCapture (_k : ProcessorKind) (_paymentID : Nat) (_amount : ℚ) :
    Option String :=
  none

/-- Embedding of the three `Refund` implementations (payment.go): each of
CardProcessor, UPIProcessor and BankProcessor logs and unconditionally
returns nil. -/
def processorRefund (_k : ProcessorKind) (_paymentID : Nat) (_amount : ℚ) :
    Option String :=
  none

/-- A call made to a processor adapter during handling. -/
inductive ProcCall
  | authorizeCall : Nat → ℚ → ProcCall
  | captureCall : Nat → ℚ → ProcCall
  | refundCall : Nat → ℚ → ProcCall
  deriving Repr, DecidableEq

/-- What a handler did: the processor calls it made and the `(key, event)`
messages it published, in order. -/
structure Trace where
  calls : List ProcCall
  published : List (String × PaymentEvent)
  deriving Repr, DecidableEq

/-- Embedding of `publishFailedEvent` (part_002 lines 282-305): set status
FAILED, record the error in metadata, publish the failure event keyed by the
payment id. `eid` is the event's `uuid.New()` draw and `now` the formatted
wall-clock time. -/
def publishFailedEvent (p : Payment) (eventType errorMessage : String)
    (eid : Nat) (now : String) : String × PaymentEvent :=
  let p1 := { p with
    status := PaymentStatusFailed
    metadata := metaSet (metaSet p.metadata "error" (.str errorMessage))
      "failure_time" (.str now) }
  (payKey p1, { id := eid, type := eventType, payment := p1 })

/-- The simulated card details the handler attaches for card payments
(part_002 lines 117-124). -/
def testCardDetails : CardDetails :=
  { cardNumber := "4111111111111111"
    expiryMonth := "12"
    expiryYear := "25"
    cvv := "123"
    cardholderName := "Test User" }

/-- The simulated UPI details the handler attaches for UPI payments
(part_002 lines 125-128). -/
def testUPIDetails : UPIDetails :=
  { upiID := "testuser@upi" }

/-- The simulated bank details the handler attaches for bank transfers
(part_002 lines 129-134). -/
def testBankDetails : BankDetails :=
  { accountNumber := "1234567890"
    ifsc := "TEST0001"
    accountName := "Test User" }

/-- Embedding of the request construction inside
`handlePaymentAuthorizationRequested` (part_002 lines 105-135): simulated
card/UPI/bank details are attached according to the payment method. -/
def buildAuthRequest (payment : Payment) : PaymentAuthorizationRequest :=
  let base : PaymentAuthorizationRequest :=
    { paymentID := payment.id
      amount := payment.amount
      currency := payment.currency
      paymentMethodType := payment.paymentMethodType
      cardDetails := none
      upiDetails := none
      bankDetails := none }
  if payment.paymentMethodType = PaymentMethodCreditCard
      ∨ payment.paymentMethodType = PaymentMethodDebitCard then
    { base with cardDetails := some testCardDetails }
  else if payment.paymentMethodType = PaymentMethodUPI then
    { base with upiDetails := some testUPIDetails }
  else if payment.paymentMethodType = PaymentMethodBankTransfer then
    { base with bankDetails := some testBankDetails }
  else
    base

/-- Embedding of `handlePaymentCaptureRequested` (part_002 lines 186-230):
no status check is made; the processor for the snapshot's method is looked
up and its `Capture` called (it always returns nil), after which the handler
publishes `payment.captured` followed by `payment.settlement.requested`.
`gen` supplies the `uuid.New()` draws and `now` the formatted time. -/
def handlePaymentCaptureRequested (gen : Nat → Nat) (now : String)
    (event : PaymentEvent) : Trace :=
  let payment := event.payment
  match PaymentProcessorFactory payment.paymentMethodType with
  | .error e =>
    { calls := []
      published := [publishFailedEvent payment "payment.capture.failed" e (gen 0) now] }
  | .ok proc =>
    match processorCapture proc payment.id payment.amount with
    | some e =>
      { calls := [.captureCall payment.id payment.amount]
        published := [publishFailedEvent payment "payment.capture.failed" e (gen 0) now] }
    | none =>
      let p1 := { payment with status := PaymentStatusCaptured }
      { calls := [.captureCall payment.id payment.amount]
        published :=
          [(payKey payment, { id := gen 0, type := "payment.captured", payment := p1 }),
           (payKey payment, { id := gen 1, type := "payment.settlement.requested", payment := p1 })] }

/-- Embedding of `handlePaymentRefundRequested` (part_002 lines 233-280):
no status check is made; the refund amount is `metadata["refund_amount"]`
when it is a float64 and the full amount otherwise; `Refund` always returns
nil, after which the payment becomes REFUNDED and `payment.refunded` is
published. -/
def handlePaymentRefundRequested (gen : Nat → Nat) (now : String)
    (event : PaymentEvent) : Trace :=
  let payment := event.payment
  match PaymentProcessorFactory payment.paymentMethodType with
  | .error e =>
    { calls := []
      published := [publishFailedEvent payment "payment.refund.failed" e (gen 0) now] }
  | .ok proc =>
    let refundAmount :=
      match metaGet payment.metadata "refund_amount" with
      | some (.num a) => a
      | _ => payment.amount
    match processorRefund proc payment.id refundAmount with
    | some e =>
      { calls := [.refundCall payment.id refundAmount]
        published := [publishFailedEvent payment "payment.refund.failed" e (gen 0) now] }
    | none =>
      let p1 := { payment with
        status := PaymentStatusRefunded
        metadata := metaSet (metaSet (metaSet payment.metadata
          "refund_amount" (.num refundAmount))
          "refund_id" (.str (toString (gen 0))))
          "refund_time" (.str now) }
      { calls := [.refundCall payment.id refundAmount]
        published := [(payKey payment, { id := gen 1, type := "payment.refunded", payment := p1 })] }

/-- Embedding of `handlePaymentAuthorizationRequested` (part_002 lines
94-183): build the authorization request, call the processor's `Authorize`
(its randomness is the draw `r`, its fresh uuid string `authUUID`), and on
an approved response set the payment AUTHORIZED (authorization details in
metadata) and publish `payment.authorized` followed by
`payment.capture.requested`, both keyed by the payment id, before
returning. -/
def handlePaymentAuthorizationRequested (currentYear currentMonth : ℤ) (r : ℚ)
    (authUUID : String) (gen : Nat → Nat) (now : String) (event : PaymentEvent) : Trace :=
  let payment := event.payment
  match PaymentProcessorFactory payment.paymentMethodType with
  | .error e =>
    { calls := []
      published := [publishFailedEvent payment "payment.authorization.failed" e (gen 0) now] }
  | .ok proc =>
    let authReq := buildAuthRequest payment
    let res := processorAuthorize proc currentYear currentMonth r authUUID authReq
    if res.2.isSome ∨ res.1.approved = false then
      let errorMessage :=
        match res.2 with
        | some e => e
        | none =>
          if res.1.error ≠ "" then res.1.error
          else "Payment authorization failed"
      { calls := [.authorizeCall payment.id payment.amount]
        published := [publishFailedEvent payment "payment.authorization.failed"
          errorMessage (gen 0) now] }
    else
      let p1 := { payment with
        status := PaymentStatusAuthorized
        metadata := metaSet (metaSet payment.metadata
          "authorization_id" (.str res.1.authorizationID))
          "processor_id" (.str res.1.processorID) }
      { calls := [.authorizeCall payment.id payment.amount]
        published :=
          [(payKey payment, { id := gen 0, type := "payment.authorized", payment := p1 }),
           (payKey payment, { id := gen 1, type := "payment.capture.requested", payment := p1 })] }

/-- Embedding of `handlePaymentInitiated` (part_002 lines 78-91): republish
the payment snapshot as a `payment.authorization.requested` command. -/
def handlePaymentInitiated (gen : Nat → Nat) (event : PaymentEvent) : Trace :=
  { calls := []
    published := [(payKey event.payment,
      { id := gen 0, type := "payment.authorization.requested", payment := event.payment })] }

/-- Embedding of the orchestrator's `processMessage` dispatch (part_002
lines 52-75). -/
def handlerProcessMessage (currentYear currentMonth : ℤ) (r : ℚ)
    (authUUID : String) (gen : Nat → Nat) (now : String) (event : PaymentEvent) : Trace :=
  if event.type = "payment.initiated" then
    handlePaymentInitiated gen event
  else if event.type = "payment.authorization.requested" then
    handlePaymentAuthorizationRequested currentYear currentMonth r authUUID gen now event
  else if event.type = "payment.capture.requested" then
    handlePaymentCaptureRequested gen now event
  else if event.type = "payment.refund.requested" then
    handlePaymentRefundRequested gen now event
  else
    { calls := [], published := [] }

/-- An externally visible action of the orchestrator's consumer loop, in
temporal order: committing the consumer-group offset of the input message
(its acknowledgement), or writing one message to the producer. -/
inductive ConsumerAction
  | commitOffset : Nat → ConsumerAction
  | publish : String → PaymentEvent → ConsumerAction
  deriving Repr, DecidableEq

/-- Embedding of one iteration of `Start` (part_002 lines 30-49) for the
message it reads, at consumer offset `offset`, together with the kafka-go
client contract the source relies on: with a consumer group (`GroupID`
set), `ReadMessage` commits the offset of the message it returns before
returning, and `Start` only then spawns `go h.processMessage(...)` — so
every publish of the handler happens after the commit. -/
def StartStep (currentYear currentMonth : ℤ) (r : ℚ) (authUUID : String)
    (gen : Nat → Nat) (now : String) (offset : Nat) (event : PaymentEvent) :
    List ConsumerAction :=
  ConsumerAction.commitOffset offset ::
    (handlerProcessMessage currentYear currentMonth r authUUID gen now event).published.map
      (fun m => ConsumerAction.publish m.1 m.2)

/-- A readable label for a consumer action: the event type (or "commit")
and the partition key (or the committed offset). -/
def actionLabel : ConsumerAction → String × String
  | .commitOffset o => ("commit", toString o)
  | .publish k e => (e.type, k)

/-! ### Claims about the orchestrator handlers -/

/-- The uuid supply used in concrete handler runs. -/
def genSeq : Nat → Nat := fun n => 500 + n

/-- A payment snapshot that is already CAPTURED (method UPI). -/
def paymentC2 : Payment :=
  { id := 11
    merchantID := 1
    customerID := 2
    amount := 1250
    currency := "USD"
    status := PaymentStatusCaptured
    paymentMethodType := PaymentMethodUPI
    metadata := []
    idempotencyKey := ""
    referenceID := "" }

/-- A capture command for the already-captured payment. -/
def eventC2 : PaymentEvent :=
  { id := 42, type := "payment.capture.requested", payment := paymentC2 }

/-- Counterexample to C2 as stated: delivering `payment.capture.requested`
for a payment that is already CAPTURED is not a no-op — the handler makes a
Capture call to the processor and publishes further events. -/
theorem capture_already_captured_not_noop :
    eventC2.payment.status = PaymentStatusCaptured ∧
    (handlePaymentCaptureRequested genSeq "t0" eventC2).calls ≠ [] ∧
    (handlePaymentCaptureRequested genSeq "t0" eventC2).published ≠ [] := by
  refine ⟨rfl, ?_, ?_⟩ <;>
    simp [handlePaymentCaptureRequested, eventC2, paymentC2, processorCapture,
      PaymentProcessorFactory, PaymentMethodUPI, PaymentMethodCreditCard,
      PaymentMethodDebitCard, PaymentMethodBankTransfer]

/-- C2 (amended): the capture handler never consults the payment's current
status; for a payment already Captured (as for any other) whose method has a
processor, it calls Capture — which always returns nil, since all three
implementations do — and publishes `payment.captured` followed by
`payment.settlement.requested`. -/
theorem capture_requested_ignores_captured_status
    (gen : Nat → Nat) (now : String) (event : PaymentEvent) (k : ProcessorKind)
    (hst : event.payment.status = PaymentStatusCaptured)
    (hf : PaymentProcessorFactory event.payment.paymentMethodType = .ok k) :
    (handlePaymentCaptureRequested gen now event).calls =
      [.captureCall event.payment.id event.payment.amount] ∧
    (handlePaymentCaptureRequested gen now event).published.map
        (fun m => (m.1, m.2.type)) =
      [(payKey event.payment, "payment.captured"),
       (payKey event.payment, "payment.settlement.requested")] := by
  simp [handlePaymentCaptureRequested, hf, processorCapture]

/-- Witness for the amended C2 theorem at the concrete captured payment. -/
theorem capture_requested_ignores_captured_status_witness :
    (handlePaymentCaptureRequested genSeq "t0" eventC2).calls =
      [.captureCall 11 1250] ∧
    (handlePaymentCaptureRequested genSeq "t0" eventC2).published.map
        (fun m => (m.1, m.2.type)) =
      [("11", "payment.captured"), ("11", "payment.settlement.requested")] := by
  have h := capture_requested_ignores_captured_status genSeq "t0" eventC2 .upi
    rfl rfl
  simpa [eventC2, paymentC2, payKey] using h

/-- A payment snapshot still in INITIATED (method UPI). -/
def paymentC5 : Payment :=
  { id := 21
    merchantID := 1
    customerID := 2
    amount := 300
    currency := "USD"
    status := PaymentStatusInitiated
    paymentMethodType := PaymentMethodUPI
    metadata := []
    idempotencyKey := ""
    referenceID := "" }

/-- A refund command for the initiated payment. -/
def eventC5 : PaymentEvent :=
  { id := 43, type := "payment.refund.requested", payment := paymentC5 }

/-- Counterexample to C5 as stated: a refund request for a payment in
INITIATED is not rejected — the handler publishes `payment.refunded`
(not `payment.refund.failed`) and the published payment is REFUNDED. -/
theorem refund_initiated_not_rejected :
    eventC5.payment.status = PaymentStatusInitiated ∧
    (handlePaymentRefundRequested genSeq "t0" eventC5).published.map
        (fun m => m.2.type) = ["payment.refunded"] ∧
    (handlePaymentRefundRequested genSeq "t0" eventC5).published.map
        (fun m => m.2.payment.status) = [PaymentStatusRefunded] := by
  refine ⟨rfl, ?_, ?_⟩ <;>
    simp [handlePaymentRefundRequested, eventC5, paymentC5, processorRefund,
      metaGet, PaymentProcessorFactory, PaymentMethodUPI, PaymentMethodCreditCard,
      PaymentMethodDebitCard, PaymentMethodBankTransfer]

/-- C5 (amended): the refund handler never consults the payment's current
status; for a payment in INITIATED (as for any other) whose method has a
processor, the Refund call always returns nil (all three implementations
do), so the handler publishes `payment.refunded` and the payment becomes
REFUNDED; `payment.refund.failed` is emitted only when the payment method is
unknown to the factory. -/
theorem refund_requested_ignores_status
    (gen : Nat → Nat) (now : String) (event : PaymentEvent) (k : ProcessorKind)
    (hst : event.payment.status = PaymentStatusInitiated)
    (hf : PaymentProcessorFactory event.payment.paymentMethodType = .ok k) :
    (handlePaymentRefundRequested gen now event).published.map
        (fun m => m.2.type) = ["payment.refunded"] ∧
    (handlePaymentRefundRequested gen now event).published.map
        (fun m => m.2.payment.status) = [PaymentStatusRefunded] := by
  simp [handlePaymentRefundRequested, hf, processorRefund]

/-- Witness for the amended C5 theorem at the concrete initiated payment. -/
theorem refund_requested_ignores_status_witness :
    (handlePaymentRefundRequested genSeq "t0" eventC5).published.map
        (fun m => m.2.type) = ["payment.refunded"] ∧
    (handlePaymentRefundRequested genSeq "t0" eventC5).published.map
        (fun m => m.2.payment.status) = [PaymentStatusRefunded] :=
  refund_requested_ignores_status genSeq "t0" eventC5 .upi rfl rfl

/-- An initiated UPI payment, input of the authorization run. -/
def paymentC8 : Payment :=
  { id := 31
    merchantID := 1
    customerID := 2
    amount := 1250
    currency := "USD"
    status := PaymentStatusInitiated
    paymentMethodType := PaymentMethodUPI
    metadata := []
    idempotencyKey := ""
    referenceID := "" }

/-- The authorization command for the UPI payment. -/
def eventC8 : PaymentEvent :=
  { id := 44, type := "payment.authorization.requested", payment := paymentC8 }

/-- Counterexample to C8 as stated: at a concrete approved authorization,
the consumer-loop action trace begins with the offset commit — the input is
acknowledged when `ReadMessage` returns, before the spawned handler writes
`payment.authorized` and `payment.capture.requested` — so the two events
are not written before acknowledging the input. -/
theorem authorization_ack_precedes_writes :
    (StartStep 2024 10 0 "u1" genSeq "t0" 7 eventC8).map actionLabel =
      [("commit", "7"),
       ("payment.authorized", "31"),
       ("payment.capture.requested", "31")] := by
  have hud : (buildAuthRequest eventC8.payment).upiDetails = some testUPIDetails := rfl
  have hfac : PaymentProcessorFactory eventC8.payment.paymentMethodType =
      .ok .upi := rfl
  have hauth : processorAuthorize .upi 2024 10 0 "u1" (buildAuthRequest eventC8.payment) =
      ({ paymentID := (buildAuthRequest eventC8.payment).paymentID,
         processorID := "upi-processor", approved := true,
         authorizationID := "upi_" ++ "u1", error := "" }, none) := by
    simp only [processorAuthorize, upiAuthorize]
    rw [hud]
    norm_num
  have htype : eventC8.type = "payment.authorization.requested" := rfl
  have hne : ¬ eventC8.type = "payment.initiated" := by rw [htype]; decide
  have hkey : payKey eventC8.payment = "31" := rfl
  have hoff : toString (7 : Nat) = "7" := rfl
  simp [StartStep, handlerProcessMessage, hne, htype,
    handlePaymentAuthorizationRequested, hfac, hauth, actionLabel, hkey, hoff]

/-- C8 (amended): on an approved authorization the handler writes
`payment.authorized` followed by `payment.capture.requested`, in that order
and both keyed by the payment id — but after the input has been
acknowledged, not before: `Start` consumes with `ReadMessage` under a
consumer group, which commits the offset of the returned message, and only
then spawns the goroutine that runs the handler. -/
theorem authorization_writes_ordered_after_ack
    (currentYear currentMonth : ℤ) (r : ℚ) (authUUID : String) (gen : Nat → Nat)
    (now : String) (offset : Nat) (event : PaymentEvent) (k : ProcessorKind)
    (htype : event.type = "payment.authorization.requested")
    (hf : PaymentProcessorFactory event.payment.paymentMethodType = .ok k)
    (hres : (processorAuthorize k currentYear currentMonth r authUUID
      (buildAuthRequest event.payment)).2 = none)
    (happ : (processorAuthorize k currentYear currentMonth r authUUID
      (buildAuthRequest event.payment)).1.approved = true) :
    (StartStep currentYear currentMonth r authUUID gen now offset event).map actionLabel =
      [("commit", toString offset),
       ("payment.authorized", payKey event.payment),
       ("payment.capture.requested", payKey event.payment)] := by
  have hne : ¬ event.type = "payment.initiated" := by
    rw [htype]; decide
  simp [StartStep, handlerProcessMessage, hne, htype,
    handlePaymentAuthorizationRequested, hf, hres, happ, actionLabel]

/-- Witness for the amended C8 theorem at a concrete approved UPI
authorization. -/
theorem authorization_writes_ordered_after_ack_witness :
    (StartStep 2024 10 0 "u1" genSeq "t0" 9 eventC8).map actionLabel =
      [("commit", toString 9),
       ("payment.authorized", payKey eventC8.payment),
       ("payment.capture.requested", payKey eventC8.payment)] := by
  have hud : (buildAuthRequest eventC8.payment).upiDetails = some testUPIDetails := rfl
  have hres : (processorAuthorize .upi 2024 10 0 "u1"
      (buildAuthRequest eventC8.payment)).2 = none := by
    simp only [processorAuthorize, upiAuthorize]
    rw [hud]
    norm_num
  have happ : (processorAuthorize .upi 2024 10 0 "u1"
      (buildAuthRequest eventC8.payment)).1.approved = true := by
    simp only [processorAuthorize, upiAuthorize]
    rw [hud]
    norm_num
  exact authorization_writes_ordered_after_ack 2024 10 0 "u1" genSeq "t0" 9 eventC8
    .upi rfl rfl hres happ

/-! ### Fraud-detection configuration (fraud-detection/internal/config/config.go) -/

/-- The process environment as the config helpers see it: the raw string
value of each set variable, together with the numeric views that
`strconv.Atoi` / `strconv.ParseFloat` produce from it (`none` when the
variable is unset or does not parse). -/
structure EnvView where
  str : String → Option String
  float : String → Option ℚ
  int : String → Option ℤ

/-- Embedding of `getEnv`. -/
def getEnv (env : EnvView) (key defaultVal : String) : String :=
  (env.str key).getD defaultVal

/-- Embedding of `getEnvAsSlice` (a set variable yields a one-element
slice). -/
def getEnvAsSlice (env : EnvView) (key : String) (defaultVal : List String) :
    List String :=
  match env.str key with
  | some value => [value]
  | none => defaultVal

/-- Embedding of `getEnvAsInt`. -/
def getEnvAsInt (env : EnvView) (key : String) (defaultVal : ℤ) : ℤ :=
  (env.int key).getD defaultVal

/-- Embedding of `getEnvAsFloat`. -/
def getEnvAsFloat (env : EnvView) (key : String) (defaultVal : ℚ) : ℚ :=
  (env.float key).getD defaultVal

/-- Embedding of `config.AppConfig`. -/
structure AppConfig where
  name : String
  environment : String
  shutdownTimeout : ℤ
  fraudThreshold : ℚ
  deriving Repr, DecidableEq

/-- Embedding of `config.KafkaConfig`. -/
structure KafkaConfig where
  brokers : List String
  paymentsTopic : String
  fraudTopic : String
  consumerGroup : String
  deriving Repr, DecidableEq

/-- Embedding of `config.Config`. -/
structure Config where
  app : AppConfig
  kafka : KafkaConfig
  deriving Repr, DecidableEq

/-- Embedding of `config.New` (config.go lines 34-54). -/
def ConfigNew (env : EnvView) : Config :=
  { app :=
      { name := getEnv env "APP_NAME" "fraud-detection"
        environment := getEnv env "APP_ENV" "development"
        shutdownTimeout := getEnvAsInt env "SHUTDOWN_TIMEOUT" 5
        fraudThreshold := getEnvAsFloat env "FRAUD_THRESHOLD" 0.7 }
    kafka :=
      { brokers := getEnvAsSlice env "KAFKA_BROKERS" ["localhost:9092"]
        paymentsTopic := getEnv env "KAFKA_PAYMENTS_TOPIC" "payments"
        fraudTopic := getEnv env "KAFKA_FRAUD_TOPIC" "fraud"
        consumerGroup := getEnv env "KAFKA_CONSUMER_GROUP" "fraud-detection" } }

/-- The environment with no variables set (all defaults apply). -/
def emptyEnv : EnvView :=
  { str := fun _ => none, float := fun _ => none, int := fun _ => none }

/-! ### Fraud analyzer (fraud-detection, package analyzer) -/

/-- Embedding of Go `strings.ToLower`. -/
def goToLower (s : String) : String :=
  String.mk (s.toList.map Char.toLower)

/-- Whether the second list is an initial segment of the first
(helper for the substring test). -/
def leadEq : List Char → List Char → Bool
  | [], _ => true
  | _ :: _, [] => false
  | c :: cs, h :: hs => c == h && leadEq cs hs

/-- Whether `needle` occurs as a contiguous run inside `hay`. -/
def subIn : List Char → List Char → Bool
  | [], needle => leadEq needle []
  | h :: t, needle => leadEq needle (h :: t) || subIn t needle

/-- Embedding of Go `strings.Contains`. -/
def goStringsContains (s sub : String) : Bool :=
  subIn s.toList sub.toList

/-- Embedding of `models.FraudCheckItem`. -/
structure FraudCheckItem where
  type : String
  score : ℚ
  info : String
  deriving Repr, DecidableEq

/-- Embedding of `models.FraudCheck` (timestamp omitted). -/
structure FraudCheck where
  paymentID : Nat
  merchantID : Nat
  customerID : Nat
  riskScore : ℚ
  isFraudulent : Bool
  reason : String
  checks : List FraudCheckItem
  deriving Repr, DecidableEq

/-- Embedding of `checkAmount` (config.go lines 154-178). -/
def checkAmount (p : Payment) : FraudCheckItem :=
  if p.amount > 10000 then
    { type := "amount_check", score := 0.8, info := "Unusually large transaction amount" }
  else if p.amount > 5000 then
    { type := "amount_check", score := 0.5, info := "Larger than average transaction amount" }
  else
    { type := "amount_check", score := 0.1, info := "Normal transaction amount" }

/-- Embedding of `checkVelocity` (config.go lines 181-200): the score is
`rand.Float64() * 0.5`, where the random draw `r` lies in [0, 1). -/
def checkVelocity (r : ℚ) (_p : Payment) : FraudCheckItem :=
  let score := r * 0.5
  { type := "velocity_check"
    score := score
    info :=
      if score > 0.3 then "Multiple transactions detected in a short period"
      else "Normal transaction frequency" }

/-- Embedding of `checkGeolocation` (config.go lines 203-236): a missing
metadata map, a missing `location` key and a non-string value all score
0.5 in the source, matched here by the association-list lookup failing or
yielding a non-string. -/
def checkGeolocation (p : Payment) : FraudCheckItem :=
  match metaGet p.metadata "location" with
  | some (.str location) =>
    if goStringsContains (goToLower location) "nigeria"
        || goStringsContains (goToLower location) "ukraine" then
      { type := "geolocation_check", score := 0.9, info := "Transaction from high-risk region" }
    else
      { type := "geolocation_check", score := 0.2, info := "Transaction from normal region" }
  | _ =>
    { type := "geolocation_check", score := 0.5, info := "No location data provided" }

/-- Embedding of `checkPaymentMethod` (config.go lines 239-272). -/
def checkPaymentMethod (p : Payment) : FraudCheckItem :=
  if p.paymentMethodType = PaymentMethodCreditCard
      ∨ p.paymentMethodType = PaymentMethodDebitCard then
    { type := "payment_method_check", score := 0.4, info := "Card payment - moderate risk" }
  else if p.paymentMethodType = PaymentMethodUPI then
    { type := "payment_method_check", score := 0.2, info := "UPI payment - lower risk" }
  else if p.paymentMethodType = PaymentMethodBankTransfer then
    { type := "payment_method_check", score := 0.1, info := "Bank transfer - lower risk" }
  else if p.paymentMethodType = PaymentMethodCrypto then
    { type := "payment_method_check", score := 0.7, info := "Crypto payment - higher risk" }
  else
    { type := "payment_method_check", score := 0.5, info := "Unknown payment method" }

/-- Embedding of `AnalyzePayment` (config.go lines 115-151):
`fraudThreshold` is the analyzer's configured threshold and `r` the velocity
check's random draw. -/
def AnalyzePayment (fraudThreshold r : ℚ) (p : Payment) : FraudCheck :=
  let checks := [checkAmount p, checkVelocity r p, checkGeolocation p, checkPaymentMethod p]
  let totalScore := checks.foldl (fun acc c => acc + c.score) 0
  let riskScore := totalScore / (checks.length : ℚ)
  let isFraudulent := decide (riskScore > fraudThreshold)
  { paymentID := p.id
    merchantID := p.merchantID
    customerID := p.customerID
    riskScore := riskScore
    isFraudulent := isFraudulent
    reason := if isFraudulent then "Multiple risk factors detected" else ""
    checks := checks }

/-! ### Fraud screener message loop (fraud-detection/cmd/main.go) -/

/-- Embedding of `models.FraudEvent` (timestamp omitted). -/
structure FraudEvent where
  id : Nat
  type : String
  fraudCheck : FraudCheck
  deriving Repr, DecidableEq

/-- A message written by the screener: the writer's topic, the message key
and the serialized fraud event. -/
structure FraudMsg where
  topic : String
  key : String
  event : FraudEvent
  deriving Repr, DecidableEq

/-- The topic of the Kafka writer built in `main` (main.go lines 50-57):
`cfg.Kafka.PaymentsTopic` — the source publishes fraud events back to the
payments topic. -/
def mainWriterTopic (cfg : Config) : String :=
  cfg.kafka.paymentsTopic

/-- Embedding of `processMessage` (main.go lines 95-152): events other than
initiated/authorized/captured are skipped; a fraudulent verdict publishes one
`fraud.detected` event keyed by the incoming message key on the writer's
topic; otherwise nothing is written. `freshId` is the event's `uuid.New()`
draw and `r` the velocity draw. -/
def processMessage (writerTopic : String) (fraudThreshold r : ℚ) (freshId : Nat)
    (msgKey : String) (event : PaymentEvent) : List FraudMsg :=
  if event.type = "payment.initiated" ∨ event.type = "payment.authorized"
      ∨ event.type = "payment.captured" then
    let fraudCheck := AnalyzePayment fraudThreshold r event.payment
    if fraudCheck.isFraudulent then
      [{ topic := writerTopic
         key := msgKey
         event := { id := freshId, type := "fraud.detected", fraudCheck := fraudCheck } }]
    else []
  else []

/-! ### Claims about the fraud screener -/

/-- Helper: the aggregate risk score spelled as the mean of the four check
scores. -/
theorem analyze_riskScore_eq (t r : ℚ) (p : Payment) :
    (AnalyzePayment t r p).riskScore =
      ((checkAmount p).score + (checkVelocity r p).score +
        (checkGeolocation p).score + (checkPaymentMethod p).score) / 4 := by
  show ((0 + (checkAmount p).score + (checkVelocity r p).score +
    (checkGeolocation p).score + (checkPaymentMethod p).score) / (4 : ℚ)) = _
  ring

/-- C4: the aggregate risk score is the arithmetic mean of the four check
scores, the verdict is true iff the mean strictly exceeds the configured
threshold, and the threshold configured by `config.New` defaults to 0.7. -/
theorem analyze_mean_threshold_default (t r : ℚ) (p : Payment) :
    (AnalyzePayment t r p).riskScore =
      ((checkAmount p).score + (checkVelocity r p).score +
        (checkGeolocation p).score + (checkPaymentMethod p).score) / 4 ∧
    ((AnalyzePayment t r p).isFraudulent = true ↔ (AnalyzePayment t r p).riskScore > t) ∧
    (ConfigNew emptyEnv).app.fraudThreshold = 0.7 :=
  ⟨analyze_riskScore_eq t r p, decide_eq_true_iff, rfl⟩

/-- C10: for any payment and any velocity draw in [0, 1), the aggregate risk
score is strictly below 0.725 (per-check maxima 0.8, under 0.5, 0.9, 0.7), so
with any threshold of at least 0.725 no payment is ever marked fraudulent. -/
theorem risk_score_lt_threshold_bound (t r : ℚ) (p : Payment)
    (h0 : 0 ≤ r) (h1 : r < 1) :
    (AnalyzePayment t r p).riskScore < 0.725 ∧
    (0.725 ≤ t → (AnalyzePayment t r p).isFraudulent = false) := by
  have ha : (checkAmount p).score ≤ 0.8 := by
    unfold checkAmount; split_ifs <;> norm_num
  have hv : (checkVelocity r p).score < 0.5 := by
    show r * 0.5 < 0.5
    linarith
  have hg : (checkGeolocation p).score ≤ 0.9 := by
    unfold checkGeolocation
    rcases hm : metaGet p.metadata "location" with _ | mv
    · norm_num
    · rcases mv with s | q
      · dsimp only; split_ifs <;> norm_num
      · norm_num
  have hpm : (checkPaymentMethod p).score ≤ 0.7 := by
    unfold checkPaymentMethod; split_ifs <;> norm_num
  have hlt : (AnalyzePayment t r p).riskScore < 0.725 := by
    rw [analyze_riskScore_eq]
    linarith
  refine ⟨hlt, fun ht => ?_⟩
  have hnot : ¬ ((AnalyzePayment t r p).riskScore > t) := by linarith
  exact decide_eq_false hnot

/-- High-risk payment used in the concrete fraud runs: amount 15000, crypto,
metadata location containing Nigeria. -/
def paymentHighRisk : Payment :=
  { id := 61
    merchantID := 1
    customerID := 2
    amount := 15000
    currency := "USD"
    status := PaymentStatusInitiated
    paymentMethodType := PaymentMethodCrypto
    metadata := [("location", .str "Lagos, Nigeria")]
    idempotencyKey := ""
    referenceID := "" }

/-- Witness for C10 at the high-risk payment, velocity draw 0 and threshold
0.725. -/
theorem risk_score_lt_threshold_bound_witness :
    (AnalyzePayment 0.725 0 paymentHighRisk).riskScore < 0.725 ∧
    (AnalyzePayment 0.725 0 paymentHighRisk).isFraudulent = false := by
  have h := risk_score_lt_threshold_bound 0.725 0 paymentHighRisk
    (by norm_num) (by norm_num)
  exact ⟨h.1, h.2 (by norm_num)⟩

/-! #### The check values at the high-risk payment -/

/-- Amount check at the high-risk payment: 15000 > 10000 scores 0.8. -/
theorem checkAmount_highRisk :
    checkAmount paymentHighRisk =
      { type := "amount_check", score := 0.8, info := "Unusually large transaction amount" } := by
  norm_num [checkAmount, paymentHighRisk]

/-- Velocity check at draw 0.9: score 0.45. -/
theorem checkVelocity_highRisk :
    checkVelocity 0.9 paymentHighRisk =
      { type := "velocity_check", score := 0.45,
        info := "Multiple transactions detected in a short period" } := by
  norm_num [checkVelocity]

/-- Geolocation check at the high-risk payment: the location contains
Nigeria (case-insensitively), scoring 0.9. -/
theorem checkGeolocation_highRisk :
    checkGeolocation paymentHighRisk =
      { type := "geolocation_check", score := 0.9,
        info := "Transaction from high-risk region" } := by
  have hme : metaGet paymentHighRisk.metadata "location" =
      some (.str "Lagos, Nigeria") := by decide
  have hc : (goStringsContains (goToLower "Lagos, Nigeria") "nigeria"
      || goStringsContains (goToLower "Lagos, Nigeria") "ukraine") = true := by decide
  simp only [checkGeolocation]
  rw [hme]
  simp [hc]

/-- Payment-method check at the high-risk payment: crypto scores 0.7. -/
theorem checkPaymentMethod_highRisk :
    checkPaymentMethod paymentHighRisk =
      { type := "payment_method_check", score := 0.7,
        info := "Crypto payment - higher risk" } := by
  simp [checkPaymentMethod, paymentHighRisk, PaymentMethodCreditCard,
    PaymentMethodDebitCard, PaymentMethodUPI, PaymentMethodBankTransfer,
    PaymentMethodCrypto]

/-- At the default threshold 0.7 and velocity draw 0.9 the high-risk payment
is marked fraudulent (mean (0.8+0.45+0.9+0.7)/4 = 0.7125 > 0.7). -/
theorem highRisk_isFraudulent :
    (AnalyzePayment 0.7 0.9 paymentHighRisk).isFraudulent = true := by
  have hrs : (AnalyzePayment 0.7 0.9 paymentHighRisk).riskScore = 0.7125 := by
    rw [analyze_riskScore_eq, checkAmount_highRisk, checkVelocity_highRisk,
      checkGeolocation_highRisk, checkPaymentMethod_highRisk]
    norm_num
  have hgt : (AnalyzePayment 0.7 0.9 paymentHighRisk).riskScore > 0.7 := by
    rw [hrs]; norm_num
  exact decide_eq_true hgt

/-- The initiated-payment event the screener consumes in the concrete run,
keyed by its payment id. -/
def eventC6 : PaymentEvent :=
  { id := 45, type := "payment.initiated", payment := paymentHighRisk }

/-- Counterexample to C6 as stated: with the default configuration, a
positive verdict publishes its single fraud.detected message on the
payments topic, not on the fraud topic (main.go line 52 configures the
writer with `cfg.Kafka.PaymentsTopic`). -/
theorem fraud_event_not_on_fraud_topic :
    (processMessage (mainWriterTopic (ConfigNew emptyEnv))
        (ConfigNew emptyEnv).app.fraudThreshold 0.9 77 "61" eventC6).map
      (fun m => m.topic) = ["payments"] ∧
    (ConfigNew emptyEnv).kafka.fraudTopic = "fraud" ∧
    "payments" ≠ "fraud" := by
  have hth : (ConfigNew emptyEnv).app.fraudThreshold = 0.7 := rfl
  refine ⟨?_, rfl, by decide⟩
  have hcond : eventC6.type = "payment.initiated" ∨ eventC6.type = "payment.authorized"
      ∨ eventC6.type = "payment.captured" := Or.inl rfl
  have hev : eventC6.payment = paymentHighRisk := rfl
  simp only [processMessage, hth]
  rw [if_pos hcond]
  simp [hev, highRisk_isFraudulent, mainWriterTopic, ConfigNew, getEnv, emptyEnv]

/-- C6 (amended): for a scored event type, the screener writes exactly one
`fraud.detected` message when the verdict is positive — keyed by the incoming
message key (the payment id) and carrying the full fraud-check record — and
nothing otherwise; the writer built in `main` publishes it on the payments
topic, not on the fraud topic. -/
theorem fraud_detected_single_message
    (cfg : Config) (r : ℚ) (fid : Nat) (key : String) (event : PaymentEvent)
    (htype : event.type = "payment.initiated" ∨ event.type = "payment.authorized"
      ∨ event.type = "payment.captured") :
    processMessage (mainWriterTopic cfg) cfg.app.fraudThreshold r fid key event =
      if (AnalyzePayment cfg.app.fraudThreshold r event.payment).isFraudulent then
        [{ topic := cfg.kafka.paymentsTopic
           key := key
           event := { id := fid, type := "fraud.detected",
                      fraudCheck := AnalyzePayment cfg.app.fraudThreshold r event.payment } }]
      else [] := by
  simp only [processMessage, mainWriterTopic]
  rw [if_pos htype]

/-- Witness for the amended C6 theorem at the concrete fraudulent run. -/
theorem fraud_detected_single_message_witness :
    processMessage (mainWriterTopic (ConfigNew emptyEnv))
        (ConfigNew emptyEnv).app.fraudThreshold 0.9 77 "61" eventC6 =
      if (AnalyzePayment (ConfigNew emptyEnv).app.fraudThreshold 0.9
          eventC6.payment).isFraudulent then
        [{ topic := (ConfigNew emptyEnv).kafka.paymentsTopic
           key := "61"
           event := { id := 77, type := "fraud.detected",
                      fraudCheck := AnalyzePayment
                        (ConfigNew emptyEnv).app.fraudThreshold 0.9 eventC6.payment } }]
      else [] :=
  fraud_detected_single_message (ConfigNew emptyEnv) 0.9 77 "61" eventC6 (Or.inl rfl)

end Fortexa
